import Mathlib

/-!
Verification of the Color-Match-Game core (`src/app.py`).

The Python source is a Streamlit app; its core consists of a similarity
scorer (`calculate_similarity`), a random target generator
(`generate_random_color`), and per-session state with the operations
`init_session_state`, `reset_game`, and `submit_answer`.

Embedding choices:
* An RGB color is a triple of integers (Python ints are unbounded, and
  the code performs no bounds check, so the embedding uses `ℤ`).
* Python floats are modelled as real numbers; `math.sqrt` is `Real.sqrt`
  and `round(x, 1)` is `round1` below, built on Mathlib `round`
  (round-half-up; Python rounds half-to-even, but no value considered in
  any theorem below is a tie, so the two modes agree on every instance
  used here).
* `random.randint` draws are passed in explicitly: `init_session_state`
  and `reset_game` take the freshly generated color as an argument.
* A Python function body with no `return` statement returns `None`;
  `submit_answer` therefore yields `none : Option ℝ` as its first
  component (the Python return value), paired with the updated session
  state.
-/

/-- An RGB triple, as produced and consumed by `src/app.py` (plain Python
ints; the code itself never enforces the `[0,255]` range). -/
abbrev RGB : Type := ℤ × ℤ × ℤ

/-- The property that every channel of a color lies in `[0, 255]`: what the
spec calls a valid `RGBColor`. The sliders in the UI only produce such
triples, but nothing in the core checks it. -/
def valid_color (c : RGB) : Prop :=
  0 ≤ c.1 ∧ c.1 ≤ 255 ∧ 0 ≤ c.2.1 ∧ c.2.1 ≤ 255 ∧ 0 ≤ c.2.2 ∧ c.2.2 ≤ 255

instance (c : RGB) : Decidable (valid_color c) := by
  unfold valid_color; infer_instance

/-- Python `round(x, 1)`: round to one decimal place. -/
noncomputable def round1 (x : ℝ) : ℝ := ((round (x * 10) : ℤ) : ℝ) / 10

/-- `calculate_similarity(target, player)` from `src/app.py`:
Euclidean distance between the two RGB triples, normalized by the
black-to-white distance `sqrt(255**2 * 3)`, turned into a percentage
`100 - distance / max_distance * 100`, rounded to one decimal place. -/
noncomputable def calculate_similarity (target player : RGB) : ℝ :=
  let distance : ℝ := Real.sqrt
    (((target.1 - player.1 : ℤ) : ℝ) ^ 2
      + ((target.2.1 - player.2.1 : ℤ) : ℝ) ^ 2
      + ((target.2.2 - player.2.2 : ℤ) : ℝ) ^ 2)
  let max_distance : ℝ := Real.sqrt (255 ^ 2 * 3)
  let similarity : ℝ := 100 - distance / max_distance * 100
  round1 similarity

/-- The per-session state kept in `st.session_state` by `src/app.py`:
`target_color`, `score_history`, `submitted`, `current_score`. -/
structure SessionState where
  target_color : RGB
  score_history : List ℝ
  submitted : Bool
  current_score : Option ℝ

/-- `init_session_state()` on a fresh session: `target_color` is a freshly
generated random color (passed here as the argument `fresh`),
`score_history = []`, `submitted = False`, `current_score = None`. -/
def init_session_state (fresh : RGB) : SessionState :=
  { target_color := fresh
    score_history := []
    submitted := false
    current_score := none }

/-- `reset_game()` from `src/app.py`: draws a new target color (the draw is
passed as `fresh`), clears the submitted flag and the current score, and
touches nothing else; in particular `score_history` is left alone. -/
def reset_game (s : SessionState) (fresh : RGB) : SessionState :=
  { s with
    target_color := fresh
    submitted := false
    current_score := none }

/-- The history update inside `submit_answer`:
`score_history.insert(0, score)` followed by
`if len(score_history) > 5: score_history.pop()` (Python `pop()` with no
argument removes the LAST element). -/
def push_history (history : List ℝ) (score : ℝ) : List ℝ :=
  let inserted := score :: history
  if inserted.length > 5 then inserted.dropLast else inserted

/-- `submit_answer(player_color)` from `src/app.py`: computes the score
against the target held by the session, stores it in `current_score`, sets
`submitted = True`, and pushes it onto the front of `score_history`
(evicting the oldest entry beyond 5). The function body has no `return`
statement, so its Python return value is `None`: the first component of
the result is that return value. -/
noncomputable def submit_answer (s : SessionState) (player_color : RGB) :
    Option ℝ × SessionState :=
  let score := calculate_similarity s.target_color player_color
  (none,
    { s with
      current_score := some score
      submitted := true
      score_history := push_history s.score_history score })

/-- Iterated submission: fold `submit_answer` over a list of guesses,
keeping only the session state (the caller in `main` discards the `None`
return value). -/
noncomputable def submit_many (s : SessionState) (guesses : List RGB) :
    SessionState :=
  guesses.foldl (fun st g => (submit_answer st g).2) s

/- ------------------------------------------------------------------ -/
/- Helper lemmas                                                      -/
/- ------------------------------------------------------------------ -/

lemma round1_intCast (z : ℤ) : round1 ((z : ℤ) : ℝ) = z := by
  unfold round1
  rw [show ((z : ℝ) * 10) = ((z * 10 : ℤ) : ℝ) by push_cast; ring,
    round_intCast]
  push_cast
  field_simp

lemma round1_bounds (x : ℝ) (h0 : 0 ≤ x) (h1 : x ≤ 100) :
    0 ≤ round1 x ∧ round1 x ≤ 100 := by
  unfold round1
  have hr := round_eq (x * 10)
  have hfl : (0 : ℤ) ≤ round (x * 10) := by
    rw [hr]
    exact Int.floor_nonneg.mpr (by linarith)
  have hfu : round (x * 10) ≤ 1000 := by
    rw [hr]
    have h2 : (x * 10 + 1 / 2 : ℝ) < 1001 := by linarith
    have h3 := Int.floor_le (x * 10 + 1 / 2 : ℝ)
    have h4 : ((⌊x * 10 + 1 / 2⌋ : ℤ) : ℝ) < 1001 := lt_of_le_of_lt h3 h2
    exact_mod_cast Int.lt_add_one_iff.mp (by exact_mod_cast h4)
  constructor
  · positivity
  · rw [div_le_iff₀ (by norm_num : (0 : ℝ) < 10)]
    calc ((round (x * 10) : ℤ) : ℝ) ≤ 1000 := by exact_mod_cast hfu
    _ = 100 * 10 := by norm_num

lemma sq_diff_le_of_mem (a b : ℝ) (ha0 : 0 ≤ a) (ha : a ≤ 255) (hb0 : 0 ≤ b)
    (hb : b ≤ 255) : (a - b) ^ 2 ≤ 255 ^ 2 := by
  nlinarith [mul_nonneg (by linarith : (0 : ℝ) ≤ 255 - a + b)
    (by linarith : (0 : ℝ) ≤ 255 + a - b)]

lemma push_history_eq_take (h : List ℝ) (x : ℝ) (hl : h.length ≤ 5) :
    push_history h x = (x :: h).take 5 := by
  unfold push_history
  rcases lt_or_eq_of_le hl with h5 | h5
  · rw [if_neg (by simp; omega), List.take_of_length_le (by simp; omega)]
  · rw [if_pos (by simp [← h5]), List.dropLast_eq_take]
    simp [← h5]

lemma take_append_take {α : Type} (A B : List α) (n : ℕ) :
    (A ++ B.take n).take n = (A ++ B).take n := by
  rw [List.take_append_eq_append_take, List.take_append_eq_append_take,
    List.take_take, Nat.min_eq_left (Nat.sub_le n A.length)]

lemma submit_answer_target (s : SessionState) (g : RGB) :
    (submit_answer s g).2.target_color = s.target_color := rfl

lemma submit_many_history (gs : List RGB) (s : SessionState)
    (hl : s.score_history.length ≤ 5) :
    (submit_many s gs).score_history
      = ((gs.map (calculate_similarity s.target_color)).reverse
          ++ s.score_history).take 5 := by
  induction gs generalizing s with
  | nil =>
    simpa [submit_many] using (List.take_of_length_le hl).symm
  | cons g rest ih =>
    have hstep : submit_many s (g :: rest)
        = submit_many (submit_answer s g).2 rest := by
      simp [submit_many]
    rw [hstep, ih _ (by
      simp [submit_answer, push_history_eq_take _ _ hl, List.length_take])]
    simp only [submit_answer, submit_answer_target]
    rw [push_history_eq_take _ _ hl]
    rw [take_append_take]
    simp [List.reverse_cons, List.append_assoc]

lemma calc_sim_red_green :
    calculate_similarity (255, 0, 0) (0, 255, 0) = 184 / 10 := by
  unfold calculate_similarity
  norm_num
  have hdiv : Real.sqrt 130050 / Real.sqrt 195075 = Real.sqrt (2 / 3) := by
    rw [← Real.sqrt_div (by norm_num : (0 : ℝ) ≤ 130050) 195075]
    norm_num
  rw [hdiv]
  have hub : Real.sqrt (2 / 3) < 0.8165 :=
    (Real.sqrt_lt' (by norm_num)).mpr (by norm_num)
  have hlb : (0.8155 : ℝ) < Real.sqrt (2 / 3) :=
    (Real.lt_sqrt (by norm_num)).mpr (by norm_num)
  unfold round1
  rw [show round ((100 - Real.sqrt (2 / 3) * 100) * 10) = 184 by
    rw [round_eq]
    rw [Int.floor_eq_iff]
    constructor
    · push_cast; nlinarith
    · push_cast; nlinarith]
  norm_num

/- ------------------------------------------------------------------ -/
/- Claims                                                             -/
/- ------------------------------------------------------------------ -/

/-- C1, counterexample: on a fresh session (empty history), one submission
leaves the session in the submitted state with one history entry, and a
second submission in that same round brings the history to TWO entries —
so a single round can add more than one entry, contrary to the claim. -/
theorem C1_counterexample :
    ((submit_answer (init_session_state (0, 0, 0)) (0, 0, 0)).2).submitted = true
    ∧ ((submit_answer (init_session_state (0, 0, 0)) (0, 0, 0)).2).score_history.length = 1
    ∧ ((submit_answer ((submit_answer (init_session_state (0, 0, 0)) (0, 0, 0)).2)
        (0, 0, 0)).2).score_history.length = 2 := by
  refine ⟨rfl, ?_, ?_⟩ <;> simp [submit_answer, init_session_state, push_history]

/-- C1, amended: when `submit_answer` is called again within the same round
(the session is already in the submitted state), the new score overwrites
`current_score` AND is pushed as an additional entry into `score_history`:
each call adds one entry, up to the 5-entry cap. -/
theorem C1_resubmission_pushes_history (s : SessionState) (g : RGB)
    (hsub : s.submitted = true) (hlen : s.score_history.length ≤ 5) :
    (submit_answer s g).2.current_score
      = some (calculate_similarity s.target_color g)
    ∧ (submit_answer s g).2.score_history.length
      = min (s.score_history.length + 1) 5 := by
  refine ⟨rfl, ?_⟩
  simp [submit_answer, push_history_eq_take _ _ hlen, List.length_take,
    Nat.min_comm]
  omega

/-- C1, witness for the amended theorem at a concrete submitted session. -/
theorem C1_witness :
    (submit_answer ⟨(0, 0, 0), [(100 : ℝ)], true, some (100 : ℝ)⟩ (0, 0, 0)).2.current_score
      = some (calculate_similarity (0, 0, 0) (0, 0, 0))
    ∧ (submit_answer ⟨(0, 0, 0), [(100 : ℝ)], true, some (100 : ℝ)⟩ (0, 0, 0)).2.score_history.length
      = min (1 + 1) 5 :=
  C1_resubmission_pushes_history ⟨(0, 0, 0), [(100 : ℝ)], true, some (100 : ℝ)⟩
    (0, 0, 0) rfl (by simp)

/-- C2, counterexample: `submit_answer` stores the computed score in
`current_score` but its Python return value is `None`, not that score —
at a concrete input the return value and the stored score differ. -/
theorem C2_counterexample :
    (submit_answer (init_session_state (0, 0, 0)) (0, 0, 0)).1 = none
    ∧ (submit_answer (init_session_state (0, 0, 0)) (0, 0, 0)).2.current_score
      = some (calculate_similarity (0, 0, 0) (0, 0, 0))
    ∧ (submit_answer (init_session_state (0, 0, 0)) (0, 0, 0)).1
      ≠ (submit_answer (init_session_state (0, 0, 0)) (0, 0, 0)).2.current_score := by
  refine ⟨rfl, rfl, ?_⟩
  simp [submit_answer]

/-- C2, amended: for every session and guess, `submit_answer` computes the
score, stores it as the new `current_score`, and returns nothing (`None`);
the caller reads the score from the session state, not from the return
value. -/
theorem C2_submit_stores_score (s : SessionState) (g : RGB) :
    (submit_answer s g).1 = none
    ∧ (submit_answer s g).2.current_score
      = some (calculate_similarity s.target_color g) :=
  ⟨rfl, rfl⟩

/-- C3: starting from an empty history, after the submissions in `gs` the
history is the reversed score list truncated to 5 — so it holds exactly
`min n 5` entries, most-recent first, with entry 0 the most recent score;
and folding the history update over the six scores 50..100 leaves
`[100, 90, 80, 70, 60]`. -/
theorem C3_history_evolution :
    (∀ (target : RGB) (gs : List RGB),
      (submit_many (init_session_state target) gs).score_history
        = ((gs.map (calculate_similarity target)).reverse).take 5
      ∧ (submit_many (init_session_state target) gs).score_history.length
        = min gs.length 5
      ∧ (submit_many (init_session_state target) gs).score_history.head?
        = gs.getLast?.map (calculate_similarity target))
    ∧ List.foldl push_history [] [50, 60, 70, 80, 90, 100]
      = [100, 90, 80, 70, 60] := by
  constructor
  · intro target gs
    have hmain : (submit_many (init_session_state target) gs).score_history
        = ((gs.map (calculate_similarity target)).reverse).take 5 := by
      simpa [init_session_state] using
        submit_many_history gs (init_session_state target)
          (by simp [init_session_state])
    refine ⟨hmain, ?_, ?_⟩
    · rw [hmain]; simp [Nat.min_comm]
    · rw [hmain]
      simp [List.head?_take, List.head?_reverse, List.getLast?_map]
  · rfl

/-- C4: `reset_game` preserves the history (length and contents), replaces
the target with the freshly generated color, clears the current score, and
returns the session to the awaiting-guess state. -/
theorem C4_reset_preserves_history (s : SessionState) (fresh : RGB) :
    (reset_game s fresh).score_history = s.score_history
    ∧ (reset_game s fresh).target_color = fresh
    ∧ (reset_game s fresh).current_score = none
    ∧ (reset_game s fresh).submitted = false :=
  ⟨rfl, rfl, rfl, rfl⟩

/-- C5: a color compared with itself scores exactly 100. -/
theorem C5_identical_colors_score_100 (c : RGB) (h : valid_color c) :
    calculate_similarity c c = 100 := by
  unfold calculate_similarity
  simp only [sub_self, Int.cast_zero, ne_eq, OfNat.ofNat_ne_zero,
    not_false_eq_true, zero_pow, add_zero, zero_add, Real.sqrt_zero,
    zero_div, zero_mul, sub_zero]
  simpa using round1_intCast 100

/-- C5, witness at the concrete color (100, 150, 200). -/
theorem C5_witness :
    valid_color (100, 150, 200)
    ∧ calculate_similarity (100, 150, 200) (100, 150, 200) = 100 :=
  ⟨by decide, C5_identical_colors_score_100 (100, 150, 200) (by decide)⟩

/-- C6: for valid colors the score always lands in `[0, 100]`, with no
explicit clamp in the code. -/
theorem C6_score_in_range (target player : RGB) (ht : valid_color target)
    (hp : valid_color player) :
    0 ≤ calculate_similarity target player
    ∧ calculate_similarity target player ≤ 100 := by
  obtain ⟨ht1, ht2, ht3, ht4, ht5, ht6⟩ := ht
  obtain ⟨hp1, hp2, hp3, hp4, hp5, hp6⟩ := hp
  unfold calculate_similarity
  set D : ℝ := ((target.1 - player.1 : ℤ) : ℝ) ^ 2
      + ((target.2.1 - player.2.1 : ℤ) : ℝ) ^ 2
      + ((target.2.2 - player.2.2 : ℤ) : ℝ) ^ 2 with hD
  have hD0 : 0 ≤ D := by positivity
  have hDle : D ≤ 255 ^ 2 * 3 := by
    have e1 : (((target.1 - player.1 : ℤ) : ℝ)) ^ 2 ≤ 255 ^ 2 := by
      push_cast
      exact sq_diff_le_of_mem _ _ (by exact_mod_cast ht1)
        (by exact_mod_cast ht2) (by exact_mod_cast hp1) (by exact_mod_cast hp2)
    have e2 : (((target.2.1 - player.2.1 : ℤ) : ℝ)) ^ 2 ≤ 255 ^ 2 := by
      push_cast
      exact sq_diff_le_of_mem _ _ (by exact_mod_cast ht3)
        (by exact_mod_cast ht4) (by exact_mod_cast hp3) (by exact_mod_cast hp4)
    have e3 : (((target.2.2 - player.2.2 : ℤ) : ℝ)) ^ 2 ≤ 255 ^ 2 := by
      push_cast
      exact sq_diff_le_of_mem _ _ (by exact_mod_cast ht5)
        (by exact_mod_cast ht6) (by exact_mod_cast hp5) (by exact_mod_cast hp6)
    rw [hD]; linarith
  have hv : (0 : ℝ) < Real.sqrt (255 ^ 2 * 3) :=
    Real.sqrt_pos.mpr (by norm_num)
  have hdle : Real.sqrt D ≤ Real.sqrt (255 ^ 2 * 3) := Real.sqrt_le_sqrt hDle
  have hratio1 : Real.sqrt D / Real.sqrt (255 ^ 2 * 3) ≤ 1 :=
    (div_le_one hv).mpr hdle
  have hratio0 : 0 ≤ Real.sqrt D / Real.sqrt (255 ^ 2 * 3) :=
    div_nonneg (Real.sqrt_nonneg D) hv.le
  exact round1_bounds _ (by nlinarith) (by nlinarith)

/-- C6, witness at the concrete pair black vs white. -/
theorem C6_witness :
    valid_color (0, 0, 0) ∧ valid_color (255, 255, 255)
    ∧ (0 ≤ calculate_similarity (0, 0, 0) (255, 255, 255)
        ∧ calculate_similarity (0, 0, 0) (255, 255, 255) ≤ 100) :=
  ⟨by decide, by decide,
    C6_score_in_range (0, 0, 0) (255, 255, 255) (by decide) (by decide)⟩

/-- C7: pure black against pure white scores exactly 0. -/
theorem C7_black_white_zero :
    calculate_similarity (0, 0, 0) (255, 255, 255) = 0 := by
  unfold calculate_similarity
  norm_num
  simpa using round1_intCast 0

/-- C8: the similarity score is symmetric in its two arguments. -/
theorem C8_score_symmetric (a b : RGB) (ha : valid_color a)
    (hb : valid_color b) :
    calculate_similarity a b = calculate_similarity b a := by
  unfold calculate_similarity
  rw [show (((a.1 - b.1 : ℤ) : ℝ)) ^ 2 + (((a.2.1 - b.2.1 : ℤ) : ℝ)) ^ 2
      + (((a.2.2 - b.2.2 : ℤ) : ℝ)) ^ 2
      = (((b.1 - a.1 : ℤ) : ℝ)) ^ 2 + (((b.2.1 - a.2.1 : ℤ) : ℝ)) ^ 2
      + (((b.2.2 - a.2.2 : ℤ) : ℝ)) ^ 2 by push_cast; ring]

/-- C8, witness at a concrete pair of valid colors. -/
theorem C8_witness :
    valid_color (1, 2, 3) ∧ valid_color (4, 5, 6)
    ∧ calculate_similarity (1, 2, 3) (4, 5, 6)
      = calculate_similarity (4, 5, 6) (1, 2, 3) :=
  ⟨by decide, by decide, C8_score_symmetric (1, 2, 3) (4, 5, 6) (by decide) (by decide)⟩

/-- C9, counterexample: the red-versus-green score is NOT 18.3; the exact
value 100·(1 − √(2/3)) ≈ 18.3503 rounds to one decimal as 18.4. -/
theorem C9_counterexample :
    calculate_similarity (255, 0, 0) (0, 255, 0) ≠ 18.3 := by
  rw [calc_sim_red_green]; norm_num

/-- C9, amended: `score((255,0,0), (0,255,0))` equals 18.4 after rounding
to one decimal place (distance √(255² + 255²) ≈ 360.62 normalized against
≈ 441.67 gives ≈ 18.3503, which rounds to 18.4, not 18.3). -/
theorem C9_red_green_score :
    calculate_similarity (255, 0, 0) (0, 255, 0) = 18.4 := by
  rw [calc_sim_red_green]; norm_num

/-- C10: the scorer is total over all integer triples (it is a plain
function in the embedding, with no bounds validation and no failure case),
and for an out-of-range input — channel 765, thrice the legal maximum —
it returns −200, a value below 0. -/
theorem C10_no_bounds_check :
    ¬ valid_color (765, 765, 765)
    ∧ calculate_similarity (0, 0, 0) (765, 765, 765) = -200
    ∧ calculate_similarity (0, 0, 0) (765, 765, 765) < 0 := by
  have h : calculate_similarity (0, 0, 0) (765, 765, 765) = -200 := by
    unfold calculate_similarity
    norm_num
    rw [show (1755675 : ℝ) = 3 ^ 2 * 195075 by norm_num,
      Real.sqrt_mul (by positivity) 195075,
      Real.sqrt_sq (by norm_num : (0 : ℝ) ≤ 3),
      mul_div_assoc, div_self (ne_of_gt (Real.sqrt_pos.mpr (by norm_num))),
      mul_one]
    rw [show (100 : ℝ) - 3 * 100 = ((-200 : ℤ) : ℝ) by norm_num]
    rw [round1_intCast]
    norm_num
  exact ⟨by decide, h, by rw [h]; norm_num⟩
